import Mathlib

/-!
# Verification of the invoice-creation form (`src/client/src/components/forms/invoice-form.tsx`)

Shallow embedding of the form's state and logic.  Embedding decisions:

* JavaScript numbers that hold monetary values (`parseFloat(product.price)`,
  line totals, discount, total) are modelled as rationals `ℚ`; the TSX keeps
  prices and the discount as decimal strings and parses them with
  `parseFloat`, we take the parsed value directly.
* Quantities start at 1 and are only ever incremented by 1, so they are `ℕ`.
* `crypto.randomUUID()` is modelled by passing the fresh id as an argument.
* React `useState` cells become fields of an explicit `FormState` record;
  a `setX` call becomes a functional update of that record.
* Asynchronous query results (`scannedProduct`, `barcodeLoading`) are not
  local state; they are passed to the handlers that read them.
* JavaScript truthiness on strings (`s ? _ : _`, `a || b`) is explicit:
  the empty string is the only falsy string.
-/

namespace DS

/-- A catalog product as the form consumes it (`Product` from `@shared/schema`):
only the fields the form reads.  `price` is the parsed value of the
product's decimal price string. -/
structure Product where
  id : String
  name : String
  price : ℚ
deriving DecidableEq, Repr

/-- `interface TransactionItem` (invoice-form.tsx lines 23–31). -/
structure TransactionItem where
  id : String
  transactionId : String
  productId : String
  productName : String
  quantity : ℕ
  price : ℚ
  total : ℚ
deriving DecidableEq, Repr

/-- A customer as the form consumes it: only the fields the form reads. -/
structure Customer where
  id : String
  name : String
deriving DecidableEq, Repr

/-- The form fields managed by react-hook-form (`InsertTransaction`):
the fields the component sets defaults for and submits.  `discount` is the
parsed value of the decimal discount string (`parseFloat(... || "0")`). -/
structure InsertTransaction where
  customerName : String
  discount : ℚ
  paymentType : String
  currency : String
deriving DecidableEq, Repr

/-- `defaultValues` of the `useForm` call (lines 60–65); `form.reset()`
returns the fields to these values. -/
def formDefaults : InsertTransaction :=
  { customerName := "", discount := 0, paymentType := "cash", currency := "TRY" }

/-- The component's local `useState` state (lines 35–40) plus the
open/closed status the `onClose` callback controls. -/
structure FormState where
  items : List TransactionItem
  selectedCustomer : Option Customer
  customerSearch : String
  productSearch : String
  barcodeInput : String
  lastScannedBarcode : String
  formFields : InsertTransaction
  isOpen : Bool
deriving DecidableEq, Repr

/-- `addItem` (lines 68–89): if an item with the product's id exists,
increment its quantity and recompute its total from the *stored* item
price; otherwise append a fresh line priced from the product.  `freshId`
stands for `crypto.randomUUID()`. -/
def addItem (freshId : String) (items : List TransactionItem) (product : Product) :
    List TransactionItem :=
  match items.find? (fun item => item.productId == product.id) with
  | some _ =>
      items.map (fun item =>
        if item.productId == product.id then
          { item with quantity := item.quantity + 1,
                      total := (item.quantity + 1 : ℚ) * item.price }
        else item)
  | none =>
      items ++ [{ id := freshId, transactionId := "", productId := product.id,
                  productName := product.name, quantity := 1,
                  price := product.price, total := product.price }]

/-- The remove handler (line 347): `setItems(items.filter(i => i.id !== item.id))`. -/
def removeItem (items : List TransactionItem) (itemId : String) : List TransactionItem :=
  items.filter (fun i => i.id != itemId)

/-- The result record of `calculateTotals` (lines 111–117). -/
structure Totals where
  subtotal : ℚ
  discount : ℚ
  total : ℚ
deriving DecidableEq, Repr

/-- `calculateTotals` (lines 111–117).  In the TSX it reads `items` and the
discount field from the surrounding state; here both are arguments. -/
def calculateTotals (items : List TransactionItem) (discount : ℚ) : Totals :=
  let subtotal := items.foldl (fun sum item => sum + item.total) 0
  { subtotal := subtotal, discount := discount, total := subtotal - discount }

/-- JavaScript `String.prototype.trim`: drop leading and trailing whitespace.
Written over the character list so that it evaluates inside the kernel. -/
def jsTrim (s : String) : String :=
  ⟨((s.data.dropWhile Char.isWhitespace).reverse.dropWhile Char.isWhitespace).reverse⟩

/-- `handleBarcodeSearch` (lines 91–94): on a blank (all-whitespace) buffer it
returns without touching state (`if (!barcodeInput.trim()) return`);
otherwise it stores the trimmed buffer as the last scanned barcode, which is
what the barcode query is keyed on. -/
def handleBarcodeSearch (s : FormState) : FormState :=
  if jsTrim s.barcodeInput = "" then s
  else { s with lastScannedBarcode := jsTrim s.barcodeInput }

/-- The barcode query (lines 47–51) is `enabled: !!lastScannedBarcode` and
keyed on `lastScannedBarcode`: the code a lookup is in flight for, if any. -/
def lookupRequest (s : FormState) : Option String :=
  if s.lastScannedBarcode ≠ "" then some s.lastScannedBarcode else none

/-- The auto-add effect (lines 103–109): when the barcode query has resolved
to a product, add it and clear both the input buffer and the scanned code;
when it has not (still loading, or not found), do nothing. -/
def barcodeEffect (s : FormState) (scannedProduct : Option Product) (freshId : String) :
    FormState :=
  match scannedProduct with
  | some p =>
      { s with items := addItem freshId s.items p,
               barcodeInput := "", lastScannedBarcode := "" }
  | none => s

/-- The render condition of the not-found notice (line 213):
`lastScannedBarcode && !scannedProduct && !barcodeLoading`. -/
def notFoundNoticeShown (s : FormState) (scannedProduct : Option Product)
    (barcodeLoading : Bool) : Bool :=
  s.lastScannedBarcode ≠ "" && scannedProduct.isNone && !barcodeLoading

/-- JavaScript `a || b` on strings: the empty string is the only falsy string. -/
def jsOrStr (a b : String) : String := if a = "" then b else a

/-- `selectedCustomer?.name` as the left operand of `||`: `undefined` (no
customer selected) and the empty name are both falsy, so both collapse to `""`. -/
def optCustomerName (sc : Option Customer) : String :=
  match sc with
  | some c => c.name
  | none => ""

/-- `selectedCustomer?.id || null` (line 139): `null` unless a customer is
selected and its id string is truthy (non-empty). -/
def optCustomerId (sc : Option Customer) : Option String :=
  match sc with
  | some c => if c.id = "" then none else some c.id
  | none => none

/-- The `transactionData` object built by `onSubmit` (lines 135–141):
the form fields spread together with the computed total, the fixed zero tax,
and the resolved customer id and name. -/
structure TransactionData where
  customerName : String
  discount : ℚ
  paymentType : String
  currency : String
  total : ℚ
  tax : ℚ
  customerId : Option String
deriving DecidableEq, Repr

/-- What a call of `onSubmit` does: whether the destructive error toast was
shown, which create-transaction requests were issued (each carrying the
transaction data and the item list), and the state afterwards.  `onSubmit`
itself never mutates the local state; mutation happens only in the
mutation's success handler. -/
structure SubmitOutcome where
  errorToast : Bool
  requests : List (TransactionData × List TransactionItem)
  newState : FormState
deriving DecidableEq, Repr

/-- `onSubmit` (lines 123–144): with no items, show the error toast and
return; otherwise build `transactionData` and call the mutation exactly once
with it and the items.  `data` is the validated form data `handleSubmit`
passes in. -/
def onSubmit (s : FormState) (data : InsertTransaction) : SubmitOutcome :=
  if s.items.length = 0 then
    { errorToast := true, requests := [], newState := s }
  else
    let t := calculateTotals s.items data.discount
    let transactionData : TransactionData :=
      { customerName := jsOrStr (optCustomerName s.selectedCustomer)
          (jsOrStr data.customerName "عميل غير محدد"),
        discount := data.discount,
        paymentType := data.paymentType,
        currency := data.currency,
        total := t.total,
        tax := 0,
        customerId := optCustomerId s.selectedCustomer }
    { errorToast := false, requests := [(transactionData, s.items)], newState := s }

/-- What the mutation's `onSuccess` handler does: which cache keys it
invalidates and the state it leaves behind. -/
structure SuccessEffect where
  invalidatedKeys : List String
  newState : FormState
deriving DecidableEq, Repr

/-- `createTransactionMutation.onSuccess` (lines 150–160): invalidate the
transactions and dashboard-metrics caches, reset the form fields to their
defaults (`form.reset()`), clear the items (`setItems([])`), and close the
form (`onClose()`).  No other state cell is written. -/
def onSuccessHandler (s : FormState) : SuccessEffect :=
  { invalidatedKeys := ["/api/transactions", "/api/dashboard/metrics"],
    newState := { s with formFields := formDefaults, items := [], isOpen := false } }

/-- What the mutation's `onError` handler does. -/
structure ErrorEffect where
  errorToast : Bool
  newState : FormState
deriving DecidableEq, Repr

/-- `createTransactionMutation.onError` (lines 161–167): show the generic
destructive toast; touch no state. -/
def onErrorHandler (s : FormState) : ErrorEffect :=
  { errorToast := true, newState := s }

/-- One user-level mutation of the item list: a product pick/scan or a
line removal. -/
inductive Op where
  | add (freshId : String) (product : Product)
  | remove (itemId : String)

/-- Apply one operation to the item list. -/
def applyOp (items : List TransactionItem) : Op → List TransactionItem
  | .add freshId product => addItem freshId items product
  | .remove itemId => removeItem items itemId

/-- Apply a sequence of operations in order. -/
def applyOps (items : List TransactionItem) (ops : List Op) : List TransactionItem :=
  ops.foldl applyOp items

/-- No two lines of the list carry the same `productId`. -/
def uniqueProductIds (items : List TransactionItem) : Prop :=
  items.Pairwise (fun a b => a.productId ≠ b.productId)

/-! ## Lemmas about `addItem` and `removeItem` -/

/-- `addItem` preserves distinctness of `productId`s: the increment branch
only rewrites quantity and total, and the append branch only fires when no
line with the product's id exists. -/
theorem addItem_unique (freshId : String) (items : List TransactionItem) (p : Product)
    (h : uniqueProductIds items) : uniqueProductIds (addItem freshId items p) := by
  unfold addItem
  cases hf : items.find? (fun item => item.productId == p.id) with
  | some it =>
      refine List.pairwise_map.mpr (h.imp ?_)
      intro a b hab
      dsimp only
      split <;> split <;> simpa using hab
  | none =>
      refine List.pairwise_append.mpr ⟨h, List.pairwise_singleton _ _, ?_⟩
      intro a ha b hb
      have hb' : b.productId = p.id := by
        simp only [List.mem_singleton] at hb
        subst hb; rfl
      have := List.find?_eq_none.mp hf a ha
      simp only [beq_iff_eq] at this
      simpa [hb'] using this

/-- Removal is a filter, so it preserves distinctness of `productId`s. -/
theorem removeItem_unique (items : List TransactionItem) (itemId : String)
    (h : uniqueProductIds items) : uniqueProductIds (removeItem items itemId) :=
  List.Pairwise.filter _ h

/-- When no line matches, `addItem` appends one fresh line of quantity 1
priced from the product. -/
theorem addItem_not_found (freshId : String) (items : List TransactionItem) (p : Product)
    (h : items.find? (fun item => item.productId == p.id) = none) :
    addItem freshId items p =
      items ++ [{ id := freshId, transactionId := "", productId := p.id,
                  productName := p.name, quantity := 1,
                  price := p.price, total := p.price }] := by
  unfold addItem
  rw [h]

/-- Adding a product to a list that does not contain it, then adding any
product with the same id again (its price and name may differ), yields the
original list plus a single line of quantity 2 whose price is the price
captured at the first add and whose total is twice that captured price. -/
theorem double_add (freshId1 freshId2 : String) (items : List TransactionItem)
    (p p2 : Product) (hid : p2.id = p.id)
    (h : items.find? (fun item => item.productId == p.id) = none) :
    addItem freshId2 (addItem freshId1 items p) p2 =
      items ++ [{ id := freshId1, transactionId := "", productId := p.id,
                  productName := p.name, quantity := 2,
                  price := p.price, total := 2 * p.price }] := by
  rw [addItem_not_found freshId1 items p h]
  unfold addItem
  rw [hid]
  rw [List.find?_append, h]
  simp only [Option.none_or, List.find?_singleton]
  rw [if_pos (by simp)]
  rw [List.map_append]
  have hmap : items.map (fun item =>
      if item.productId == p.id then
        { item with quantity := item.quantity + 1,
                    total := (item.quantity + 1 : ℚ) * item.price }
      else item) = items := by
    have := List.find?_eq_none.mp h
    calc items.map _ = items.map id := by
          refine List.map_eq_map_iff.mpr ?_
          intro x hx
          have hx' := this x hx
          simp only [beq_iff_eq] at hx'
          simp [hx']
      _ = items := List.map_id items
  rw [hmap]
  simp only [List.map_cons, List.map_nil]
  norm_num

/-- Any sequence of adds and removals preserves distinctness of `productId`s. -/
theorem applyOps_unique (ops : List Op) (items : List TransactionItem)
    (h : uniqueProductIds items) : uniqueProductIds (applyOps items ops) := by
  induction ops generalizing items with
  | nil => exact h
  | cons op ops ih =>
      cases op with
      | add freshId product => exact ih _ (addItem_unique freshId items product h)
      | remove itemId => exact ih _ (removeItem_unique items itemId h)

/-- In a list with distinct `productId`s, at most one line matches any id. -/
theorem unique_filter_length_le_one (l : List TransactionItem) (pid : String)
    (h : uniqueProductIds l) :
    (l.filter (fun it => it.productId == pid)).length ≤ 1 := by
  induction l with
  | nil => simp
  | cons a t ih =>
      rcases List.pairwise_cons.mp h with ⟨ha, ht⟩
      by_cases hc : a.productId = pid
      · have hnil : t.filter (fun it => it.productId == pid) = [] := by
          refine List.filter_eq_nil_iff.mpr ?_
          intro b hb
          have := ha b hb
          simp only [beq_iff_eq]
          intro hbp
          exact this (hc.trans hbp.symm)
        simp [List.filter_cons, hc, hnil]
      · simp only [List.filter_cons, beq_iff_eq, hc]
        simpa using ih ht

/-! ## Claims -/

/-- C1: every sequence of `addItem` and `remove` operations starting from the
empty item list keeps at most one line per distinct `productId`; and adding
the same product twice to a list not containing it yields exactly one line
for that product, with quantity 2 and line total `2 × price`, not two lines. -/
theorem C1_at_most_one_line_per_product (ops : List Op) (pid : String)
    (freshId1 freshId2 : String) (items : List TransactionItem) (p : Product)
    (h : items.find? (fun item => item.productId == p.id) = none) :
    ((applyOps [] ops).filter (fun it => it.productId == pid)).length ≤ 1 ∧
    ((addItem freshId2 (addItem freshId1 items p) p).filter
        (fun it => it.productId == p.id)).length = 1 ∧
    (∀ it ∈ addItem freshId2 (addItem freshId1 items p) p, it.productId = p.id →
      it.quantity = 2 ∧ it.total = 2 * p.price) := by
  have hdd := double_add freshId1 freshId2 items p p rfl h
  have hnil : items.filter (fun it => it.productId == p.id) = [] := by
    refine List.filter_eq_nil_iff.mpr ?_
    intro b hb
    simpa using List.find?_eq_none.mp h b hb
  refine ⟨unique_filter_length_le_one _ _ (applyOps_unique ops [] List.Pairwise.nil), ?_, ?_⟩
  · rw [hdd, List.filter_append, hnil]
    simp
  · intro it hit hpid
    rw [hdd] at hit
    rcases List.mem_append.mp hit with hmem | hmem
    · have := List.find?_eq_none.mp h it hmem
      simp [hpid] at this
    · simp only [List.mem_singleton] at hmem
      subst hmem
      exact ⟨rfl, rfl⟩

/-- The product used in concrete witnesses. -/
def witnessProduct : Product := { id := "p1", name := "A", price := 10 }

/-- Witness for C1 at concrete inputs: the sequence add, add, remove on the
empty list, and a double add of `witnessProduct` to the empty list. -/
theorem C1_at_most_one_line_per_product_witness :
    ((applyOps [] [Op.add "u1" witnessProduct, Op.add "u2" witnessProduct,
        Op.remove "u1"]).filter (fun it => it.productId == "p1")).length ≤ 1 ∧
    ((addItem "u2" (addItem "u1" [] witnessProduct) witnessProduct).filter
        (fun it => it.productId == witnessProduct.id)).length = 1 ∧
    (∀ it ∈ addItem "u2" (addItem "u1" [] witnessProduct) witnessProduct,
      it.productId = witnessProduct.id →
      it.quantity = 2 ∧ it.total = 2 * witnessProduct.price) :=
  C1_at_most_one_line_per_product
    [Op.add "u1" witnessProduct, Op.add "u2" witnessProduct, Op.remove "u1"]
    "p1" "u1" "u2" [] witnessProduct rfl

/-- The fold in `calculateTotals` computes the sum of the line totals. -/
theorem foldl_add_total (items : List TransactionItem) (a : ℚ) :
    items.foldl (fun sum item => sum + item.total) a
      = a + (items.map (fun it => it.total)).sum := by
  induction items generalizing a with
  | nil => simp
  | cons x t ih => simp [List.foldl_cons, ih, add_assoc]

/-- The item list of the spec's worked example, built by the form's own
`addItem`: a product of price 10 added twice and a product of price 5 added
once, i.e. lines `price 10 × qty 2` and `price 5 × qty 1`. -/
def exampleItems : List TransactionItem :=
  addItem "e3"
    (addItem "e2" (addItem "e1" [] { id := "pa", name := "A", price := 10 })
      { id := "pa", name := "A", price := 10 })
    { id := "pb", name := "B", price := 5 }

/-- C2: for every item list and discount, `calculateTotals` returns the sum
of the line totals as subtotal and `subtotal − discount` as total; on the
spec's example (lines 10×2 and 5×1, discount 3) it gives 25 and 22; a
discount above the subtotal produces a negative total rather than being
rejected. -/
theorem C2_calculateTotals (items : List TransactionItem) (discount : ℚ) :
    (calculateTotals items discount).subtotal = (items.map (fun it => it.total)).sum ∧
    (calculateTotals items discount).total
      = (calculateTotals items discount).subtotal - discount ∧
    (calculateTotals exampleItems 3).subtotal = 25 ∧
    (calculateTotals exampleItems 3).total = 22 ∧
    (calculateTotals [] 5).total = -5 := by
  refine ⟨?_, rfl, ?_, ?_, ?_⟩
  · show items.foldl (fun sum item => sum + item.total) 0 = _
    rw [foldl_add_total]
    simp
  all_goals norm_num [calculateTotals, exampleItems, addItem, List.find?, List.foldl]

/-- The form state right after opening: empty items, no selected customer,
blank search and barcode buffers, default form fields. -/
def initialFormState : FormState :=
  { items := [], selectedCustomer := none, customerSearch := "",
    productSearch := "", barcodeInput := "", lastScannedBarcode := "",
    formFields := formDefaults, isOpen := true }

/-- A concrete line item used by witnesses: one unit of product `p1` at 10. -/
def witnessItem : TransactionItem :=
  { id := "i1", transactionId := "", productId := "p1", productName := "A",
    quantity := 1, price := 10, total := 10 }

/-- C3: removing the only line empties the item list; submitting while the
item list is empty shows the validation error toast, issues no
create-transaction request, and leaves the whole form state unchanged. -/
theorem C3_empty_submission_rejected (it : TransactionItem) (s : FormState)
    (data : InsertTransaction) (h : s.items = []) :
    removeItem [it] it.id = [] ∧
    (onSubmit s data).errorToast = true ∧
    (onSubmit s data).requests = [] ∧
    (onSubmit s data).newState = s := by
  have hsub : onSubmit s data = { errorToast := true, requests := [], newState := s } := by
    unfold onSubmit
    rw [if_pos (by rw [h]; rfl)]
  refine ⟨?_, by rw [hsub], by rw [hsub], by rw [hsub]⟩
  simp [removeItem]

/-- Witness for C3 at concrete inputs: the one-line list `[witnessItem]` and
the freshly opened, empty form state. -/
theorem C3_empty_submission_rejected_witness :
    removeItem [witnessItem] witnessItem.id = [] ∧
    (onSubmit initialFormState formDefaults).errorToast = true ∧
    (onSubmit initialFormState formDefaults).requests = [] ∧
    (onSubmit initialFormState formDefaults).newState = initialFormState :=
  C3_empty_submission_rejected witnessItem initialFormState formDefaults rfl

/-- C4: the unit price of a line is the product price captured when the line
was first added; adding a product with the same id again — with a possibly
different catalog price and name — increments the line using the captured
price, so the line's price stays `p.price` and its total becomes
`2 × p.price`, independent of the later catalog price. -/
theorem C4_price_captured_at_add_time (freshId1 freshId2 : String)
    (items : List TransactionItem) (p p2 : Product) (hid : p2.id = p.id)
    (h : items.find? (fun item => item.productId == p.id) = none) :
    ∀ it ∈ addItem freshId2 (addItem freshId1 items p) p2, it.productId = p.id →
      it.price = p.price ∧ it.quantity = 2 ∧ it.total = 2 * p.price := by
  have hdd := double_add freshId1 freshId2 items p p2 hid h
  intro it hit hpid
  rw [hdd] at hit
  rcases List.mem_append.mp hit with hmem | hmem
  · have := List.find?_eq_none.mp h it hmem
    simp [hpid] at this
  · simp only [List.mem_singleton] at hmem
    subst hmem
    exact ⟨rfl, rfl, rfl⟩

/-- A later catalog state of `witnessProduct`: same id, price changed to 99. -/
def repricedProduct : Product := { id := "p1", name := "A", price := 99 }

/-- The line that results from adding `witnessProduct` to the empty list and
re-adding it after its catalog price changed to 99. -/
def capturedLine : TransactionItem :=
  { id := "u1", transactionId := "", productId := "p1", productName := "A",
    quantity := 2, price := 10, total := 20 }

/-- Witness for C4 at concrete inputs: `witnessProduct` (price 10) added to
the empty list, then re-added after its catalog price changed to 99; the
resulting line keeps price 10 and has total 20, untouched by the 99. -/
theorem C4_price_captured_at_add_time_witness :
    capturedLine.price = witnessProduct.price ∧ capturedLine.quantity = 2 ∧
    capturedLine.total = 2 * witnessProduct.price := by
  have hmem : capturedLine ∈ addItem "u2" (addItem "u1" [] witnessProduct) repricedProduct := by
    rw [double_add "u1" "u2" [] witnessProduct repricedProduct rfl rfl]
    norm_num [capturedLine, witnessProduct]
  exact C4_price_captured_at_add_time "u1" "u2" [] witnessProduct repricedProduct
    rfl rfl capturedLine hmem rfl

/-- A selected customer whose stored name is the empty string. -/
def emptyNameCustomer : Customer := { id := "c1", name := "" }

/-- A form state with one line item and `emptyNameCustomer` selected. -/
def emptyNameCustomerState : FormState :=
  { initialFormState with items := [witnessItem],
                          selectedCustomer := some emptyNameCustomer }

/-- Form data with the typed customer name `"Bob"`. -/
def typedBobData : InsertTransaction :=
  { customerName := "Bob", discount := 0, paymentType := "cash", currency := "TRY" }

/-- Counterexample to C5 as stated: a customer IS selected (with the empty
string as its stored name), yet the issued request carries the typed name
`"Bob"`, not the selected customer's name — `selectedCustomer?.name ||
data.customerName || …` skips a selected customer whose name is falsy. -/
theorem C5_selected_name_counterexample :
    emptyNameCustomerState.selectedCustomer = some emptyNameCustomer ∧
    (onSubmit emptyNameCustomerState typedBobData).requests.map
      (fun r => r.1.customerName) = ["Bob"] ∧
    "Bob" ≠ emptyNameCustomer.name :=
  ⟨rfl, rfl, by decide⟩

/-- C5 (amended): every submission with a non-empty item list issues exactly
one create-transaction request; its payload carries the form fields, the
computed total, tax fixed to zero, the resolved customer id, and the full
item list; the customer name resolves by JavaScript truthiness — the
selected customer's name if one is selected and its name is non-empty, else
the typed name if non-empty, else the fallback. -/
theorem C5_submission_payload (s : FormState) (data : InsertTransaction)
    (h : s.items ≠ []) :
    (onSubmit s data).errorToast = false ∧
    (onSubmit s data).requests.length = 1 ∧
    ∀ r ∈ (onSubmit s data).requests,
      r.2 = s.items ∧
      r.1.total = (calculateTotals s.items data.discount).total ∧
      r.1.tax = 0 ∧
      r.1.discount = data.discount ∧
      r.1.paymentType = data.paymentType ∧
      r.1.currency = data.currency ∧
      r.1.customerId = optCustomerId s.selectedCustomer ∧
      r.1.customerName =
        (match s.selectedCustomer with
         | some c =>
             if c.name ≠ "" then c.name
             else if data.customerName ≠ "" then data.customerName
             else "عميل غير محدد"
         | none =>
             if data.customerName ≠ "" then data.customerName
             else "عميل غير محدد") := by
  have hlen : ¬ s.items.length = 0 := by
    simpa [List.length_eq_zero] using h
  unfold onSubmit
  rw [if_neg hlen]
  refine ⟨rfl, rfl, ?_⟩
  intro r hr
  simp only [List.mem_singleton] at hr
  subst hr
  refine ⟨rfl, rfl, rfl, rfl, rfl, rfl, rfl, ?_⟩
  show jsOrStr (optCustomerName s.selectedCustomer)
      (jsOrStr data.customerName "عميل غير محدد") = _
  cases s.selectedCustomer with
  | none =>
      by_cases hd : data.customerName = "" <;>
        simp [optCustomerName, jsOrStr, hd]
  | some c =>
      by_cases hc : c.name = "" <;> by_cases hd : data.customerName = "" <;>
        simp [optCustomerName, jsOrStr, hc, hd]

/-- Witness for the amended C5 at concrete inputs: the state with one line
and `emptyNameCustomer` selected, and the typed name `"Bob"`. -/
theorem C5_submission_payload_witness :
    (onSubmit emptyNameCustomerState typedBobData).errorToast = false ∧
    (onSubmit emptyNameCustomerState typedBobData).requests.length = 1 ∧
    ∀ r ∈ (onSubmit emptyNameCustomerState typedBobData).requests,
      r.2 = emptyNameCustomerState.items ∧
      r.1.total = (calculateTotals emptyNameCustomerState.items
        typedBobData.discount).total ∧
      r.1.tax = 0 ∧
      r.1.discount = typedBobData.discount ∧
      r.1.paymentType = typedBobData.paymentType ∧
      r.1.currency = typedBobData.currency ∧
      r.1.customerId = optCustomerId emptyNameCustomerState.selectedCustomer ∧
      r.1.customerName =
        (match emptyNameCustomerState.selectedCustomer with
         | some c =>
             if c.name ≠ "" then c.name
             else if typedBobData.customerName ≠ "" then typedBobData.customerName
             else "عميل غير محدد"
         | none =>
             if typedBobData.customerName ≠ "" then typedBobData.customerName
             else "عميل غير محدد") :=
  C5_submission_payload emptyNameCustomerState typedBobData (by decide)

/-- A selected customer with a normal name, for the C6 counterexample. -/
def aliceCustomer : Customer := { id := "c2", name := "Alice" }

/-- A form state with one line item and `aliceCustomer` selected. -/
def aliceSelectedState : FormState :=
  { initialFormState with items := [witnessItem],
                          selectedCustomer := some aliceCustomer }

/-- Counterexample to C6 as stated: after the success handler runs on a
state with a selected customer, the selected customer is still selected —
the handler resets the form fields and the items but never clears
`selectedCustomer`, so the "entire draft state" is not reset. -/
theorem C6_selected_customer_counterexample :
    (onSuccessHandler aliceSelectedState).newState.selectedCustomer
      = some aliceCustomer ∧
    some aliceCustomer ≠ (none : Option Customer) :=
  ⟨rfl, by decide⟩

/-- C6 (amended): after a successful submission the transactions and
dashboard-metrics caches are invalidated, the form fields are reset to their
defaults, the item list is cleared, and the form is closed; the selected
customer, however, is left as it was, not cleared. -/
theorem C6_success_resets_form (s : FormState) :
    (onSuccessHandler s).invalidatedKeys
      = ["/api/transactions", "/api/dashboard/metrics"] ∧
    (onSuccessHandler s).newState.formFields = formDefaults ∧
    (onSuccessHandler s).newState.items = [] ∧
    (onSuccessHandler s).newState.isOpen = false ∧
    (onSuccessHandler s).newState.selectedCustomer = s.selectedCustomer :=
  ⟨rfl, rfl, rfl, rfl, rfl⟩

/-- C7: after a failed submission the generic error toast is shown and the
whole form state — item list, selected customer, form fields, everything —
is exactly what it was, so the same draft can be resubmitted. -/
theorem C7_error_preserves_draft (s : FormState) :
    (onErrorHandler s).errorToast = true ∧ (onErrorHandler s).newState = s :=
  ⟨rfl, rfl⟩

/-- C8: when the barcode lookup resolves to a product not already in the
item list, the auto-add effect leaves exactly one line for that product,
with quantity 1 priced from the product, and clears both the scan input
buffer and the scanned code. -/
theorem C8_barcode_adds_product (s : FormState) (p : Product) (freshId : String)
    (h : s.items.find? (fun item => item.productId == p.id) = none) :
    ((barcodeEffect s (some p) freshId).items.filter
        (fun it => it.productId == p.id)).length = 1 ∧
    (∀ it ∈ (barcodeEffect s (some p) freshId).items, it.productId = p.id →
      it.quantity = 1 ∧ it.price = p.price ∧ it.total = p.price) ∧
    (barcodeEffect s (some p) freshId).barcodeInput = "" ∧
    (barcodeEffect s (some p) freshId).lastScannedBarcode = "" := by
  have hitems : (barcodeEffect s (some p) freshId).items = addItem freshId s.items p := rfl
  have hadd := addItem_not_found freshId s.items p h
  have hnil : s.items.filter (fun it => it.productId == p.id) = [] := by
    refine List.filter_eq_nil_iff.mpr ?_
    intro b hb
    simpa using List.find?_eq_none.mp h b hb
  refine ⟨?_, ?_, rfl, rfl⟩
  · rw [hitems, hadd, List.filter_append, hnil]
    simp
  · intro it hit hpid
    rw [hitems, hadd] at hit
    rcases List.mem_append.mp hit with hmem | hmem
    · have := List.find?_eq_none.mp h it hmem
      simp [hpid] at this
    · simp only [List.mem_singleton] at hmem
      subst hmem
      exact ⟨rfl, rfl, rfl⟩

/-- A form state mid-scan: code `"123"` looked up, buffers still holding it. -/
def scanningState : FormState :=
  { initialFormState with barcodeInput := "123", lastScannedBarcode := "123" }

/-- Witness for C8 at concrete inputs: `scanningState` (empty item list) and
a lookup that resolved to `witnessProduct`. -/
theorem C8_barcode_adds_product_witness :
    ((barcodeEffect scanningState (some witnessProduct) "u1").items.filter
        (fun it => it.productId == witnessProduct.id)).length = 1 ∧
    (∀ it ∈ (barcodeEffect scanningState (some witnessProduct) "u1").items,
      it.productId = witnessProduct.id →
      it.quantity = 1 ∧ it.price = witnessProduct.price ∧
      it.total = witnessProduct.price) ∧
    (barcodeEffect scanningState (some witnessProduct) "u1").barcodeInput = "" ∧
    (barcodeEffect scanningState (some witnessProduct) "u1").lastScannedBarcode = "" :=
  C8_barcode_adds_product scanningState witnessProduct "u1" rfl

/-- C9: a barcode lookup that resolves to not-found leaves the whole form
state — the item list in particular — unchanged, and the not-found notice is
rendered once the lookup has settled; the effect is a total function, so no
exception is possible. -/
theorem C9_barcode_not_found (s : FormState) (freshId : String)
    (h : s.lastScannedBarcode ≠ "") :
    barcodeEffect s none freshId = s ∧
    (barcodeEffect s none freshId).items = s.items ∧
    notFoundNoticeShown s none false = true := by
  refine ⟨rfl, rfl, ?_⟩
  simp [notFoundNoticeShown, h]

/-- Witness for C9 at concrete inputs: `scanningState`, whose scanned code
`"123"` is non-empty. -/
theorem C9_barcode_not_found_witness :
    barcodeEffect scanningState none "u1" = scanningState ∧
    (barcodeEffect scanningState none "u1").items = scanningState.items ∧
    notFoundNoticeShown scanningState none false = true :=
  C9_barcode_not_found scanningState "u1" (by decide)

/-- C10: a blank (empty or all-whitespace) barcode buffer makes
`handleBarcodeSearch` return with the state untouched and no lookup
triggered beyond what was already in flight; any other buffer submits
exactly its trimmed value for lookup, leaving the rest of the state alone. -/
theorem C10_barcode_search_trims (s : FormState) :
    (jsTrim s.barcodeInput = "" →
      handleBarcodeSearch s = s ∧
      lookupRequest (handleBarcodeSearch s) = lookupRequest s) ∧
    (jsTrim s.barcodeInput ≠ "" →
      (handleBarcodeSearch s).lastScannedBarcode = jsTrim s.barcodeInput ∧
      lookupRequest (handleBarcodeSearch s) = some (jsTrim s.barcodeInput) ∧
      (handleBarcodeSearch s).items = s.items ∧
      (handleBarcodeSearch s).barcodeInput = s.barcodeInput ∧
      (handleBarcodeSearch s).selectedCustomer = s.selectedCustomer ∧
      (handleBarcodeSearch s).formFields = s.formFields) := by
  constructor
  · intro hblank
    have : handleBarcodeSearch s = s := by
      unfold handleBarcodeSearch
      rw [if_pos hblank]
    exact ⟨this, by rw [this]⟩
  · intro hcode
    have : handleBarcodeSearch s = { s with lastScannedBarcode := jsTrim s.barcodeInput } := by
      unfold handleBarcodeSearch
      rw [if_neg hcode]
    rw [this]
    exact ⟨rfl, by simp [lookupRequest, hcode], rfl, rfl, rfl, rfl⟩

/-- A form state whose barcode buffer holds only whitespace. -/
def blankBufferState : FormState := { initialFormState with barcodeInput := "   " }

/-- A form state whose barcode buffer holds `" 123 "`. -/
def paddedBufferState : FormState := { initialFormState with barcodeInput := " 123 " }

/-- Witness for C10 at concrete inputs: a whitespace-only buffer is a no-op
and no lookup starts; the buffer `" 123 "` submits exactly `"123"`. -/
theorem C10_barcode_search_trims_witness :
    (handleBarcodeSearch blankBufferState = blankBufferState ∧
      lookupRequest (handleBarcodeSearch blankBufferState)
        = lookupRequest blankBufferState) ∧
    lookupRequest (handleBarcodeSearch paddedBufferState) = some "123" :=
  ⟨(C10_barcode_search_trims blankBufferState).1 (by decide),
   (((C10_barcode_search_trims paddedBufferState).2 (by decide)).2).1⟩

end DS
